import Mathlib

/-!
Verification development for the location-tracker server (src/server.js).

The data model mirrors the SQLite tables created in `db.serialize` and the
request bodies of the Express endpoints.  JavaScript numbers are embedded as
rationals (`ℚ`) where the code only compares and adds them, and the
trigonometric distance computation (`calculateDistance`) is embedded over the
reals.  Asynchronous database writes are embedded by passing the outcome of
the write (`insertOk` / `updateOk`) as an explicit boolean parameter; each
endpoint returns its HTTP-level result, the successor database state and the
list of Socket.IO emissions it performs.
-/

namespace LocationTracker

/-! ## Data model (tables from `db.serialize`, src/server.js lines 90-177) -/

/-- A row of the `tracking_links` table. -/
structure TrackingLink where
  id : String
  name : Option String
  active : Bool
  trackingInterval : ℤ
  maxDuration : ℤ
  deriving Repr, DecidableEq

/-- A row of the `location_data` table (columns inserted by the ingest
endpoints; nullable columns are `Option`). -/
structure LocationRow where
  trackingId : Option String
  latitude : ℚ
  longitude : ℚ
  accuracy : ℚ
  speed : ℚ
  heading : ℚ
  altitude : ℚ
  timestamp : ℤ
  userAgent : Option String
  ipAddress : Option String
  sessionId : Option String
  batteryLevel : Option ℚ
  networkType : Option String
  deriving Repr, DecidableEq, Inhabited

/-- A row of the `tracking_sessions` table. -/
structure TrackingSession where
  id : String
  trackingId : Option String
  lastUpdate : ℤ
  isActive : Bool
  totalLocations : ℤ
  deviceInfo : Option String
  deriving Repr, DecidableEq

/-- A row of the `geofences` table. -/
structure Geofence where
  id : ℤ
  trackingId : Option String
  latitude : ℚ
  longitude : ℚ
  radius : ℚ
  action : Option String
  active : Bool
  deriving Repr, DecidableEq

/-- The database state touched by the embedded endpoints. -/
structure DB where
  trackingLinks : List TrackingLink
  locationData : List LocationRow
  trackingSessions : List TrackingSession
  geofences : List Geofence
  deriving Repr, DecidableEq

/-- The empty database. -/
def DB.empty : DB := ⟨[], [], [], []⟩

/-- An incoming request body for the location-ingest endpoints
(`/api/save-location`, `/api/mobile/location`, `/api/background-location`).
Absent (undefined/null) fields are `none`. -/
structure LocationRequest where
  trackingId : Option String
  latitude : Option ℚ
  longitude : Option ℚ
  accuracy : Option ℚ
  speed : Option ℚ
  heading : Option ℚ
  altitude : Option ℚ
  userAgent : Option String
  ipAddress : Option String
  sessionId : Option String
  batteryLevel : Option ℚ
  networkType : Option String
  deriving Repr, DecidableEq

/-- The payload of a `location-update` Socket.IO event. -/
structure LocationEvent where
  latitude : ℚ
  longitude : ℚ
  accuracy : ℚ
  speed : ℚ
  heading : ℚ
  altitude : ℚ
  batteryLevel : Option ℚ
  networkType : Option String
  timestamp : ℤ
  deriving Repr, DecidableEq

/-- An emission `io.to(room).emit('location-update', payload)`:
the room (the request's `trackingId`) together with the payload. -/
abbrev Emit : Type := Option String × LocationEvent

/-! ## JavaScript truthiness and rounding -/

/-- JavaScript falsiness of a possibly-absent number: `undefined`, `null`
and `0` are falsy. -/
def numFalsy : Option ℚ → Bool
  | none => true
  | some x => x == 0

/-- JavaScript falsiness of a possibly-absent string: `undefined`, `null`
and the empty string are falsy. -/
def strFalsy : Option String → Bool
  | none => true
  | some s => s == ""

/-- The JavaScript `Math.round` on a real (half-up). -/
noncomputable def jsRound (x : ℝ) : ℤ := ⌊x + 1/2⌋

/-- The JavaScript `Math.round` on a rational (half-up). -/
def jsRoundQ (x : ℚ) : ℤ := ⌊x + 1/2⌋

/-! ## Input validation middleware (`validateLocationData`, lines 63-79) -/

/-- The three 400-responses of `validateLocationData`:
`'Eksik konum verileri'` (missing fields), `'Geçersiz koordinatlar'`
(invalid coordinates) and `'Geçersiz hassasiyet değeri'` (invalid
accuracy). -/
inductive ValidationError where
  | missingFields
  | invalidCoordinates
  | invalidAccuracy
  deriving Repr, DecidableEq

/-- The middleware `validateLocationData` (src/server.js lines 63-79): it
checks `!latitude || !longitude || !accuracy` (JavaScript truthiness),
then the coordinate ranges, then the accuracy range; `none` means the
request passes to the handler. -/
def validateLocationData (r : LocationRequest) : Option ValidationError :=
  if numFalsy r.latitude || numFalsy r.longitude || numFalsy r.accuracy then
    some .missingFields
  else if r.latitude.getD 0 < -90 || r.latitude.getD 0 > 90 ||
      r.longitude.getD 0 < -180 || r.longitude.getD 0 > 180 then
    some .invalidCoordinates
  else if r.accuracy.getD 0 < 0 || r.accuracy.getD 0 > 10000 then
    some .invalidAccuracy
  else
    none

/-! ## Geo math (`calculateDistance`, lines 631-640) -/

/-- The JavaScript runtime's `Math.atan2 y x`. -/
noncomputable def atan2 (y x : ℝ) : ℝ :=
  if 0 < x then Real.arctan (y / x)
  else if x < 0 then
    (if 0 ≤ y then Real.arctan (y / x) + Real.pi else Real.arctan (y / x) - Real.pi)
  else
    (if 0 < y then Real.pi / 2 else if y < 0 then -(Real.pi / 2) else 0)

/-- The function `calculateDistance` (src/server.js lines 631-640): Haversine
great-circle distance in kilometres with Earth radius `R = 6371`. -/
noncomputable def calculateDistance (lat1 lon1 lat2 lon2 : ℝ) : ℝ :=
  let R : ℝ := 6371
  let dLat := (lat2 - lat1) * Real.pi / 180
  let dLon := (lon2 - lon1) * Real.pi / 180
  let a := Real.sin (dLat/2) * Real.sin (dLat/2) +
      Real.cos (lat1 * Real.pi / 180) * Real.cos (lat2 * Real.pi / 180) *
      Real.sin (dLon/2) * Real.sin (dLon/2)
  let c := 2 * atan2 (Real.sqrt a) (Real.sqrt (1 - a))
  R * c

/-- The intermediate value `a` of `calculateDistance`, named so the
theorems can speak about it. -/
noncomputable def haversineA (lat1 lon1 lat2 lon2 : ℝ) : ℝ :=
  Real.sin ((lat2 - lat1) * Real.pi / 180 / 2) *
    Real.sin ((lat2 - lat1) * Real.pi / 180 / 2) +
  Real.cos (lat1 * Real.pi / 180) * Real.cos (lat2 * Real.pi / 180) *
    Real.sin ((lon2 - lon1) * Real.pi / 180 / 2) *
    Real.sin ((lon2 - lon1) * Real.pi / 180 / 2)

/-! ## Route analysis (`analyzeRoute`, lines 585-628) -/

/-- A stop recorded by `analyzeRoute` (gap longer than 5 minutes between
consecutive samples): the later sample's coordinates, the gap in minutes
and the later sample's timestamp. -/
structure Stop where
  latitude : ℚ
  longitude : ℚ
  duration : ℚ
  timestamp : ℤ
  deriving Repr, DecidableEq

/-- The object returned by `analyzeRoute`.  The two-element short-circuit
return of the source carries no `totalLocations`/`duration` fields, hence
the `Option`. -/
structure RouteSummary where
  totalDistance : ℝ
  avgSpeed : ℚ
  stops : List Stop
  totalLocations : Option ℕ
  duration : Option ℚ

/-- One iteration of the `for` loop of `analyzeRoute` (lines 595-619),
threading `(totalDistance, totalSpeed, speedCount, stops)` over the pair
`(prev, curr) = (locations[i-1], locations[i])`. -/
noncomputable def routeStep (acc : ℝ × ℚ × ℕ × List Stop)
    (pc : LocationRow × LocationRow) : ℝ × ℚ × ℕ × List Stop :=
  let prev := pc.1
  let curr := pc.2
  let distance := calculateDistance (prev.latitude : ℝ) (prev.longitude : ℝ)
      (curr.latitude : ℝ) (curr.longitude : ℝ)
  let timeDiff := curr.timestamp - prev.timestamp
  ⟨acc.1 + distance,
   (if curr.speed ≠ 0 then acc.2.1 + curr.speed else acc.2.1),
   (if curr.speed ≠ 0 then acc.2.2.1 + 1 else acc.2.2.1),
   (if timeDiff > 5 * 60 * 1000 then
      acc.2.2.2 ++ [⟨curr.latitude, curr.longitude, (timeDiff : ℚ) / (1000 * 60), curr.timestamp⟩]
    else acc.2.2.2)⟩

/-- The function `analyzeRoute` (src/server.js lines 585-628).  Timestamps are embedded
as milliseconds since the epoch, so `new Date(b) - new Date(a)` is `b - a`. -/
noncomputable def analyzeRoute (locations : List LocationRow) : RouteSummary :=
  if locations.length < 2 then
    ⟨0, 0, [], none, none⟩
  else
    let acc := (locations.zip locations.tail).foldl routeStep (0, 0, 0, [])
    { totalDistance := (jsRound (acc.1 * 100) : ℝ) / 100
      avgSpeed := if acc.2.2.1 > 0 then (jsRoundQ (acc.2.1 / (acc.2.2.1 : ℚ) * 3.6) : ℚ) else 0
      stops := acc.2.2.2
      totalLocations := some locations.length
      duration := some ((((locations.getLastD default).timestamp -
          (locations.headD default).timestamp : ℤ) : ℚ) / (1000 * 60 * 60)) }

/-! ## Geofence check (`POST /api/mobile/check-geofence`, lines 733-760) -/

/-- An entry of the `triggeredGeofences` response array: the geofence id,
its action and `Math.round(distance * 1000)` (metres). -/
structure TriggeredGeofence where
  id : ℤ
  action : Option String
  distance : ℤ

/-- Endpoint `POST /api/mobile/check-geofence` (lines 733-760): select the active
geofences of the tracking link, then push an entry for each geofence whose
computed distance (kilometres) satisfies `distance <= geofence.radius`. -/
noncomputable def checkGeofence (db : DB) (trackingId : Option String)
    (latitude longitude : ℚ) : List TriggeredGeofence :=
  let geofences := db.geofences.filter (fun g => g.trackingId == trackingId && g.active)
  geofences.foldl (fun acc g =>
    let distance := calculateDistance (latitude : ℝ) (longitude : ℝ)
        (g.latitude : ℝ) (g.longitude : ℝ)
    if distance ≤ (g.radius : ℝ) then
      acc ++ [⟨g.id, g.action, jsRound (distance * 1000)⟩]
    else acc) []

/-! ## Ingest endpoints (lines 279-346, 685-730, 763-814) -/

/-- The HTTP-level outcome of an ingest endpoint. -/
inductive IngestResult where
  | validationError (e : ValidationError)
  | sessionIdRequired
  | storageError
  | success
  deriving Repr, DecidableEq

/-- The `location_data` row inserted by `/api/save-location` and
`/api/background-location` (destructuring defaults `speed = 0`,
`heading = 0`, `altitude = 0`). -/
def saveLocationRow (r : LocationRequest) (now : ℤ) : LocationRow :=
  { trackingId := r.trackingId
    latitude := r.latitude.getD 0
    longitude := r.longitude.getD 0
    accuracy := r.accuracy.getD 0
    speed := r.speed.getD 0
    heading := r.heading.getD 0
    altitude := r.altitude.getD 0
    timestamp := now
    userAgent := r.userAgent
    ipAddress := r.ipAddress
    sessionId := r.sessionId
    batteryLevel := none
    networkType := none }

/-- The `location_data` row inserted by `/api/mobile/location`. -/
def mobileLocationRow (r : LocationRequest) (now : ℤ) : LocationRow :=
  { trackingId := r.trackingId
    latitude := r.latitude.getD 0
    longitude := r.longitude.getD 0
    accuracy := r.accuracy.getD 0
    speed := r.speed.getD 0
    heading := r.heading.getD 0
    altitude := r.altitude.getD 0
    timestamp := now
    userAgent := none
    ipAddress := none
    sessionId := r.sessionId
    batteryLevel := r.batteryLevel
    networkType := r.networkType }

/-- The `UPDATE tracking_sessions SET last_update = ..., total_locations =
total_locations + 1 WHERE id = sessionId` bookkeeping write. -/
def bumpSession (sessions : List TrackingSession) (sessionId : Option String)
    (now : ℤ) : List TrackingSession :=
  sessions.map (fun s =>
    if some s.id == sessionId then
      { s with lastUpdate := now, totalLocations := s.totalLocations + 1 }
    else s)

/-- The `location-update` payload emitted by `/api/save-location` and
`/api/background-location` (no battery/network fields). -/
def saveLocationEvent (r : LocationRequest) (now : ℤ) : LocationEvent :=
  { latitude := r.latitude.getD 0
    longitude := r.longitude.getD 0
    accuracy := r.accuracy.getD 0
    speed := r.speed.getD 0
    heading := r.heading.getD 0
    altitude := r.altitude.getD 0
    batteryLevel := none
    networkType := none
    timestamp := now }

/-- The `location-update` payload emitted by `/api/mobile/location`. -/
def mobileLocationEvent (r : LocationRequest) (now : ℤ) : LocationEvent :=
  { saveLocationEvent r now with
    batteryLevel := r.batteryLevel
    networkType := r.networkType }

/-- Endpoint `POST /api/save-location` (src/server.js lines 279-346): runs the
`validateLocationData` middleware, rejects a falsy `sessionId`
(`'Session ID gerekli'`), inserts the row, bumps the session counters and
emits `location-update` to the room named by the request's `trackingId`.
`insertOk` is the outcome of the `INSERT`; on failure the endpoint answers
500 and performs no further effect.  Note the handler never consults
`tracking_links`. -/
def saveLocation (db : DB) (r : LocationRequest) (insertOk : Bool)
    (now : ℤ) : IngestResult × DB × List Emit :=
  match validateLocationData r with
  | some e => (.validationError e, db, [])
  | none =>
    if strFalsy r.sessionId then (.sessionIdRequired, db, [])
    else if insertOk then
      (.success,
       { db with
         locationData := db.locationData ++ [saveLocationRow r now]
         trackingSessions := bumpSession db.trackingSessions r.sessionId now },
       [(r.trackingId, saveLocationEvent r now)])
    else (.storageError, db, [])

/-- Endpoint `POST /api/mobile/location` (src/server.js lines 685-730): same shape
as `/api/save-location` but with battery/network columns and, notably,
no `sessionId` check at all. -/
def mobileLocation (db : DB) (r : LocationRequest) (insertOk : Bool)
    (now : ℤ) : IngestResult × DB × List Emit :=
  match validateLocationData r with
  | some e => (.validationError e, db, [])
  | none =>
    if insertOk then
      (.success,
       { db with
         locationData := db.locationData ++ [mobileLocationRow r now]
         trackingSessions := bumpSession db.trackingSessions r.sessionId now },
       [(r.trackingId, mobileLocationEvent r now)])
    else (.storageError, db, [])

/-- Endpoint `POST /api/background-location` (src/server.js lines 763-814): the
handler body is identical to `/api/save-location`. -/
def backgroundLocation (db : DB) (r : LocationRequest) (insertOk : Bool)
    (now : ℤ) : IngestResult × DB × List Emit :=
  match validateLocationData r with
  | some e => (.validationError e, db, [])
  | none =>
    if strFalsy r.sessionId then (.sessionIdRequired, db, [])
    else if insertOk then
      (.success,
       { db with
         locationData := db.locationData ++ [saveLocationRow r now]
         trackingSessions := bumpSession db.trackingSessions r.sessionId now },
       [(r.trackingId, saveLocationEvent r now)])
    else (.storageError, db, [])

/-! ## Session stop (`POST /api/stop-session`, lines 366-379) -/

/-- The HTTP-level outcome of `/api/stop-session`: the handler answers
`{success: true}` whenever the `UPDATE` ran, regardless of how many rows
matched; only a database error yields a 500. -/
inductive StopResult where
  | ok
  | dbError
  deriving Repr, DecidableEq

/-- Endpoint `POST /api/stop-session` (src/server.js lines 366-379):
`UPDATE tracking_sessions SET is_active = 0 WHERE id = ?`. -/
def stopSession (db : DB) (sessionId : Option String) (updateOk : Bool) :
    StopResult × DB :=
  if updateOk then
    (.ok,
     { db with trackingSessions := db.trackingSessions.map (fun s =>
         if some s.id == sessionId then { s with isActive := false } else s) })
  else (.dbError, db)

/-! ## Socket.IO fan-out (lines 180-223 and the `io.to(...).emit` sites) -/

/-- The process-local Socket.IO state: room membership pairs
`(socketId, trackingId)`, the `activeConnections` map and the log of
`location-update` deliveries `(socketId, payload)`. -/
structure FanoutState where
  rooms : List (String × String)
  activeConnections : List (String × String)
  delivered : List (String × LocationEvent)
  deriving Repr, DecidableEq

/-- The initial fan-out state. -/
def FanoutState.empty : FanoutState := ⟨[], [], []⟩

/-- The fan-out operations: the `join-tracking`, `leave-tracking` and
`disconnect` socket handlers (lines 185-217) and a
`io.to(trackingId).emit('location-update', e)` publish. -/
inductive FanoutOp where
  | joinTracking (socketId trackingId : String)
  | leaveTracking (socketId trackingId : String)
  | disconnect (socketId : String)
  | publish (trackingId : String) (event : LocationEvent)
  deriving Repr, DecidableEq

/-- The sockets currently in a room. -/
def roomMembers (rooms : List (String × String)) (trackingId : String) :
    List String :=
  (rooms.filter (fun m => m.2 == trackingId)).map (fun m => m.1)

/-- One fan-out step.  `socket.join` is idempotent; `socket.leave` removes
the membership; on `disconnect` Socket.IO removes the socket from every
room (and the handler clears `activeConnections`); a publish delivers the
event to every socket currently in the room. -/
def fanoutStep (s : FanoutState) : FanoutOp → FanoutState
  | .joinTracking sid tid =>
    { s with
      rooms := if (sid, tid) ∈ s.rooms then s.rooms else s.rooms ++ [(sid, tid)]
      activeConnections :=
        (s.activeConnections.filter (fun p => p.1 != sid)) ++ [(sid, tid)] }
  | .leaveTracking sid tid =>
    { s with
      rooms := s.rooms.filter (fun m => m != (sid, tid))
      activeConnections := s.activeConnections.filter (fun p => p.1 != sid) }
  | .disconnect sid =>
    { s with
      rooms := s.rooms.filter (fun m => m.1 != sid)
      activeConnections := s.activeConnections.filter (fun p => p.1 != sid) }
  | .publish tid e =>
    { s with
      delivered := s.delivered ++ (roomMembers s.rooms tid).map (fun c => (c, e)) }

/-- Run a sequence of fan-out operations. -/
def fanoutRun (s : FanoutState) (ops : List FanoutOp) : FanoutState :=
  ops.foldl fanoutStep s

/-- The events delivered to one socket, in delivery order. -/
def deliveredTo (s : FanoutState) (socketId : String) : List LocationEvent :=
  (s.delivered.filter (fun p => p.1 == socketId)).map (fun p => p.2)

/-! ## Derived forms referenced by the theorems -/

/-- The stop that the `analyzeRoute` loop pushes for a consecutive pair
`(prev, curr)` whose gap exceeds 5 minutes. -/
def stopOfPair (pc : LocationRow × LocationRow) : Stop :=
  ⟨pc.2.latitude, pc.2.longitude,
   ((pc.2.timestamp - pc.1.timestamp : ℤ) : ℚ) / (1000 * 60), pc.2.timestamp⟩

/-! ## Concrete fixtures used in counterexamples and witnesses -/

/-- A field-valid request whose `trackingId` names no tracking link. -/
def reqGhost : LocationRequest :=
  { trackingId := some "ghost", latitude := some 41, longitude := some 29
    accuracy := some 10, speed := none, heading := none, altitude := none
    userAgent := none, ipAddress := none, sessionId := some "s1"
    batteryLevel := none, networkType := none }

/-- A field-valid request that carries no `sessionId` at all. -/
def reqNoSession : LocationRequest :=
  { reqGhost with sessionId := none }

/-- A request whose latitude is present but `0` (falsy in JavaScript) and
whose longitude `200` is out of range. -/
def reqLat0Lon200 : LocationRequest :=
  { reqGhost with latitude := some 0, longitude := some 200, accuracy := some 5 }

/-- A request on the equator: latitude present and equal to `0`. -/
def reqEquator : LocationRequest :=
  { reqGhost with latitude := some 0 }

/-- A database holding one active tracking session `"sess1"`. -/
def dbOneSession : DB :=
  { DB.empty with trackingSessions := [⟨"sess1", some "t", 0, true, 0, none⟩] }

/-- An active geofence of link `"t"` centred at `(0, 180)` with radius
`25000` (metres, per the spec's unit for `radius`). -/
def geofenceFar : Geofence :=
  ⟨1, some "t", 0, 180, 25000, some "alert", true⟩

/-- A database holding only `geofenceFar`. -/
def dbGeofence : DB := { DB.empty with geofences := [geofenceFar] }

/-- First sample of the route-analysis scenario: `(41.0082, 28.9784)`,
speed reading 5 m/s, captured at `t0`. -/
def sample1 (t0 : ℤ) : LocationRow :=
  { trackingId := some "t", latitude := 41.0082, longitude := 28.9784
    accuracy := 10, speed := 5, heading := 0, altitude := 0, timestamp := t0
    userAgent := none, ipAddress := none, sessionId := some "s1"
    batteryLevel := none, networkType := none }

/-- Second sample of the scenario: `(41.0122, 28.9844)`, speed reading
7 m/s, captured 2 minutes after `t0`. -/
def sample2 (t0 : ℤ) : LocationRow :=
  { sample1 t0 with
    latitude := 41.0122, longitude := 28.9844, speed := 7
    timestamp := t0 + 2 * 60 * 1000 }

/-- A sample `location-update` payload. -/
def evSample : LocationEvent := ⟨0, 0, 0, 0, 0, 0, none, none, 0⟩

/-- A field-valid request with latitude 95 (out of range). -/
def reqLat95 : LocationRequest := { reqGhost with latitude := some 95 }

/-- A field-valid request with accuracy -1 (out of range). -/
def reqAccNeg : LocationRequest := { reqGhost with accuracy := some (-1) }

/-! # Helper lemmas -/

/-- The `location_data` list after `/api/save-location`: unchanged, or
(when the session check passed and the insert succeeded) extended by
exactly the built row. -/
lemma saveLocation_locationData_shape (db : DB) (r : LocationRequest)
    (insertOk : Bool) (now : ℤ) :
    (saveLocation db r insertOk now).2.1.locationData = db.locationData ∨
    (strFalsy r.sessionId = false ∧
     (saveLocation db r insertOk now).2.1.locationData
       = db.locationData ++ [saveLocationRow r now]) := by
  unfold saveLocation
  cases h : validateLocationData r with
  | some e => simp
  | none =>
    by_cases hs : strFalsy r.sessionId
    · simp [hs]
    · cases insertOk <;> simp [hs]

/-- The `location_data` list after `/api/background-location` (same body
as `/api/save-location`). -/
lemma backgroundLocation_locationData_shape (db : DB) (r : LocationRequest)
    (insertOk : Bool) (now : ℤ) :
    (backgroundLocation db r insertOk now).2.1.locationData = db.locationData ∨
    (strFalsy r.sessionId = false ∧
     (backgroundLocation db r insertOk now).2.1.locationData
       = db.locationData ++ [saveLocationRow r now]) := by
  unfold backgroundLocation
  cases h : validateLocationData r with
  | some e => simp
  | none =>
    by_cases hs : strFalsy r.sessionId
    · simp [hs]
    · cases insertOk <;> simp [hs]

/-- Endpoint `/api/save-location` emits nothing unless it answers success. -/
lemma saveLocation_events_shape (db : DB) (r : LocationRequest)
    (insertOk : Bool) (now : ℤ) :
    (saveLocation db r insertOk now).2.2 = [] ∨
    (saveLocation db r insertOk now).1 = .success := by
  unfold saveLocation
  cases h : validateLocationData r with
  | some e => simp
  | none =>
    by_cases hs : strFalsy r.sessionId
    · simp [hs]
    · cases insertOk <;> simp [hs]

/-- Endpoint `/api/mobile/location` emits nothing unless it answers success. -/
lemma mobileLocation_events_shape (db : DB) (r : LocationRequest)
    (insertOk : Bool) (now : ℤ) :
    (mobileLocation db r insertOk now).2.2 = [] ∨
    (mobileLocation db r insertOk now).1 = .success := by
  unfold mobileLocation
  cases h : validateLocationData r with
  | some e => simp
  | none => cases insertOk <;> simp

/-! # Claims -/

/-- C10: at every endpoint guarded by `validateLocationData`, a sample whose
latitude, longitude or accuracy is present but equal to 0 is rejected with
the missing-fields validation error (HTTP 400), because presence is tested
by JavaScript truthiness — even though 0 lies inside the documented valid
ranges.  A sample on the equator, on the prime meridian, or with accuracy 0
is never accepted. -/
theorem zero_valued_field_rejected (db : DB) (r : LocationRequest)
    (insertOk : Bool) (now : ℤ)
    (h : r.latitude = some 0 ∨ r.longitude = some 0 ∨ r.accuracy = some 0) :
    validateLocationData r = some .missingFields ∧
    saveLocation db r insertOk now = (.validationError .missingFields, db, []) ∧
    mobileLocation db r insertOk now = (.validationError .missingFields, db, []) ∧
    backgroundLocation db r insertOk now = (.validationError .missingFields, db, []) := by
  have hv : validateLocationData r = some .missingFields := by
    rcases h with h | h | h <;> simp [validateLocationData, numFalsy, h]
  exact ⟨hv, by simp [saveLocation, hv], by simp [mobileLocation, hv],
    by simp [backgroundLocation, hv]⟩

/-- Witness for C10 at the concrete equator request (latitude present, 0). -/
theorem zero_valued_field_rejected_witness :
    validateLocationData reqEquator = some .missingFields ∧
    saveLocation DB.empty reqEquator true 0
      = (.validationError .missingFields, DB.empty, []) ∧
    mobileLocation DB.empty reqEquator true 0
      = (.validationError .missingFields, DB.empty, []) ∧
    backgroundLocation DB.empty reqEquator true 0
      = (.validationError .missingFields, DB.empty, []) :=
  zero_valued_field_rejected DB.empty reqEquator true 0 (Or.inl rfl)

/-- C5 as stated is false: in `reqLat0Lon200` latitude, longitude and
accuracy are all present (non-null) and longitude 200 is out of range, so
the claimed order demands the 'invalid coordinates' error; the code answers
'missing fields' because the present latitude 0 is falsy. -/
theorem validation_order_counterexample :
    reqLat0Lon200.latitude = some 0 ∧
    reqLat0Lon200.longitude = some 200 ∧
    reqLat0Lon200.accuracy = some 5 ∧
    ((200 : ℚ) > 180) ∧
    saveLocation DB.empty reqLat0Lon200 true 0
      = (.validationError .missingFields, DB.empty, []) ∧
    ValidationError.missingFields ≠ ValidationError.invalidCoordinates := by
  exact ⟨rfl, rfl, rfl, by norm_num, by decide, by decide⟩

/-- C5 (amended): `/api/save-location` validation fails fast in this order,
with the first presence check deciding by JavaScript truthiness (missing or
zero) rather than nullness: falsy latitude/longitude/accuracy → 'missing
fields'; otherwise out-of-range latitude or longitude → 'invalid
coordinates'; otherwise out-of-range accuracy → 'invalid accuracy';
otherwise a falsy `sessionId` → 'Session ID gerekli'; every validation
failure leaves the database unchanged and emits nothing. -/
theorem save_location_validation_order (db : DB) (r : LocationRequest)
    (insertOk : Bool) (now : ℤ) :
    ((numFalsy r.latitude || numFalsy r.longitude || numFalsy r.accuracy) = true →
      saveLocation db r insertOk now = (.validationError .missingFields, db, []))
    ∧ ((numFalsy r.latitude || numFalsy r.longitude || numFalsy r.accuracy) = false →
       (r.latitude.getD 0 < -90 ∨ r.latitude.getD 0 > 90 ∨
        r.longitude.getD 0 < -180 ∨ r.longitude.getD 0 > 180) →
      saveLocation db r insertOk now = (.validationError .invalidCoordinates, db, []))
    ∧ ((numFalsy r.latitude || numFalsy r.longitude || numFalsy r.accuracy) = false →
       -90 ≤ r.latitude.getD 0 → r.latitude.getD 0 ≤ 90 →
       -180 ≤ r.longitude.getD 0 → r.longitude.getD 0 ≤ 180 →
       (r.accuracy.getD 0 < 0 ∨ r.accuracy.getD 0 > 10000) →
      saveLocation db r insertOk now = (.validationError .invalidAccuracy, db, []))
    ∧ (validateLocationData r = none → strFalsy r.sessionId = true →
      saveLocation db r insertOk now = (.sessionIdRequired, db, [])) := by
  refine ⟨?_, ?_, ?_, ?_⟩
  · intro h1
    simp [saveLocation, validateLocationData, h1]
  · intro h1 h2
    have hc : (decide (r.latitude.getD 0 < -90) || decide (r.latitude.getD 0 > 90) ||
        decide (r.longitude.getD 0 < -180) || decide (r.longitude.getD 0 > 180)) = true := by
      rcases h2 with h | h | h | h <;> simp [h]
    simp [saveLocation, validateLocationData, h1, hc]
  · intro h1 ha hb hc' hd h2
    have hc2 : (decide (r.latitude.getD 0 < -90) || decide (r.latitude.getD 0 > 90) ||
        decide (r.longitude.getD 0 < -180) || decide (r.longitude.getD 0 > 180)) = false := by
      simp only [Bool.or_eq_false_iff, decide_eq_false_iff_not, not_lt]
      exact ⟨⟨⟨ha, hb⟩, hc'⟩, hd⟩
    have hc3 : (decide (r.accuracy.getD 0 < 0) || decide (r.accuracy.getD 0 > 10000)) = true := by
      rcases h2 with h | h <;> simp [h]
    simp [saveLocation, validateLocationData, h1, hc2, hc3]
  · intro hv hs
    simp [saveLocation, hv, hs]

/-- Witness for C5 (amended), one concrete request per validation branch. -/
theorem save_location_validation_order_witness :
    saveLocation DB.empty reqEquator true 0
      = (.validationError .missingFields, DB.empty, []) ∧
    saveLocation DB.empty reqLat95 true 0
      = (.validationError .invalidCoordinates, DB.empty, []) ∧
    saveLocation DB.empty reqAccNeg true 0
      = (.validationError .invalidAccuracy, DB.empty, []) ∧
    saveLocation DB.empty reqNoSession true 0
      = (.sessionIdRequired, DB.empty, []) := by
  refine ⟨(save_location_validation_order DB.empty reqEquator true 0).1 (by decide),
    (save_location_validation_order DB.empty reqLat95 true 0).2.1 (by decide)
      (Or.inr (Or.inl (by decide))),
    (save_location_validation_order DB.empty reqAccNeg true 0).2.2.1 (by decide)
      (by decide) (by decide) (by decide) (by decide) (Or.inl (by decide)),
    (save_location_validation_order DB.empty reqNoSession true 0).2.2.2
      (by decide) (by decide)⟩

/-- C3 as stated is false: the database holds no tracking links at all, yet
the valid sample `reqGhost` for trackingId "ghost" is persisted — a
`location_data` row referencing an unknown link is written. -/
theorem unknown_link_sample_persisted :
    DB.empty.trackingLinks = [] ∧
    ((saveLocation DB.empty reqGhost true 0).2.1.locationData.map
      (fun row => row.trackingId)) = [some "ghost"] :=
  ⟨rfl, by decide⟩

/-- C3 (amended): the ingest endpoints never consult `tracking_links`; a
sample that passes field validation (and, for `/api/save-location`, the
session check) is persisted and acknowledged even when — as the hypothesis
states — no existing tracking link is named by its `trackingId` with the
active flag set. -/
theorem ingest_skips_tracking_link_check (db : DB) (r : LocationRequest) (now : ℤ)
    (hnolink : ∀ l ∈ db.trackingLinks, ¬(some l.id = r.trackingId ∧ l.active = true))
    (hv : validateLocationData r = none)
    (hs : strFalsy r.sessionId = false) :
    (saveLocation db r true now).1 = .success ∧
    (saveLocation db r true now).2.1.locationData
      = db.locationData ++ [saveLocationRow r now] ∧
    (mobileLocation db r true now).1 = .success ∧
    (mobileLocation db r true now).2.1.locationData
      = db.locationData ++ [mobileLocationRow r now] := by
  simp [saveLocation, mobileLocation, hv, hs]

/-- Witness for C3 (amended): the empty database has no links, and the
sample is persisted by both endpoints. -/
theorem ingest_skips_tracking_link_check_witness :
    (saveLocation DB.empty reqGhost true 0).1 = .success ∧
    (saveLocation DB.empty reqGhost true 0).2.1.locationData
      = DB.empty.locationData ++ [saveLocationRow reqGhost 0] ∧
    (mobileLocation DB.empty reqGhost true 0).1 = .success ∧
    (mobileLocation DB.empty reqGhost true 0).2.1.locationData
      = DB.empty.locationData ++ [mobileLocationRow reqGhost 0] :=
  ingest_skips_tracking_link_check DB.empty reqGhost 0 (by simp [DB.empty])
    (by decide) (by decide)

/-- C4 as stated is false: `/api/mobile/location` persists a sample that
carries no session id at all — the inserted row's `session_id` is NULL. -/
theorem mobile_location_persists_missing_session :
    ((mobileLocation DB.empty reqNoSession true 0).2.1.locationData.map
      (fun row => row.sessionId)) = [none] := by
  decide

/-- C4 (amended): every row persisted by `/api/save-location` or
`/api/background-location` carries a non-falsy session id (both handlers
reject a falsy `sessionId` before inserting); `/api/mobile/location`
performs no such check. -/
theorem persisted_rows_have_session_id (db : DB) (r : LocationRequest)
    (insertOk : Bool) (now : ℤ) :
    (∀ row ∈ (saveLocation db r insertOk now).2.1.locationData,
      row ∈ db.locationData ∨ strFalsy row.sessionId = false) ∧
    (∀ row ∈ (backgroundLocation db r insertOk now).2.1.locationData,
      row ∈ db.locationData ∨ strFalsy row.sessionId = false) := by
  constructor
  · intro row hrow
    rcases saveLocation_locationData_shape db r insertOk now with h | ⟨hs, h⟩
    · exact Or.inl (h ▸ hrow)
    · rw [h] at hrow
      rcases List.mem_append.mp hrow with h2 | h2
      · exact Or.inl h2
      · simp at h2
        subst h2
        exact Or.inr hs
  · intro row hrow
    rcases backgroundLocation_locationData_shape db r insertOk now with h | ⟨hs, h⟩
    · exact Or.inl (h ▸ hrow)
    · rw [h] at hrow
      rcases List.mem_append.mp hrow with h2 | h2
      · exact Or.inl h2
      · simp at h2
        subst h2
        exact Or.inr hs

/-- Witness for C4 (amended) at a concrete persisted row. -/
theorem persisted_rows_have_session_id_witness :
    saveLocationRow reqGhost 0 ∈ (saveLocation DB.empty reqGhost true 0).2.1.locationData ∧
    (saveLocationRow reqGhost 0 ∈ DB.empty.locationData ∨
      strFalsy (saveLocationRow reqGhost 0).sessionId = false) ∧
    saveLocationRow reqGhost 0 ∈ (backgroundLocation DB.empty reqGhost true 0).2.1.locationData ∧
    (saveLocationRow reqGhost 0 ∈ DB.empty.locationData ∨
      strFalsy (saveLocationRow reqGhost 0).sessionId = false) := by
  refine ⟨by decide,
    (persisted_rows_have_session_id DB.empty reqGhost true 0).1 _ (by decide),
    by decide,
    (persisted_rows_have_session_id DB.empty reqGhost true 0).2 _ (by decide)⟩

/-- C6 as stated is false: stopping a session id that names no existing
session reports success with the state untouched; no `NotFoundError` is
raised. -/
theorem stop_unknown_session_reports_success :
    stopSession dbOneSession (some "ghost") true = (.ok, dbOneSession) ∧
    (∀ s ∈ dbOneSession.trackingSessions, s.id ≠ "ghost") := by
  exact ⟨by decide, by decide⟩

/-- C6 (amended): `/api/stop-session` reports success whether or not the
session exists (there is no `NotFoundError` path); when sessions with the
given id exist, their active flag is cleared. -/
theorem stop_session_reports_success (db : DB) (sessionId : Option String) :
    (stopSession db sessionId true).1 = .ok ∧
    (∀ s ∈ (stopSession db sessionId true).2.trackingSessions,
      some s.id = sessionId → s.isActive = false) ∧
    (∀ s ∈ db.trackingSessions, some s.id = sessionId →
      { s with isActive := false } ∈ (stopSession db sessionId true).2.trackingSessions) := by
  refine ⟨rfl, ?_, ?_⟩
  · intro s hs hid
    simp only [stopSession, if_pos trivial, List.mem_map] at hs
    obtain ⟨s0, hs0, heq⟩ := hs
    by_cases h : some s0.id = sessionId
    · rw [if_pos (by simp [h])] at heq
      rw [← heq]
    · rw [if_neg (by simp [h])] at heq
      rw [← heq] at hid
      exact absurd hid h
  · intro s hs hid
    simp only [stopSession, if_pos trivial, List.mem_map]
    exact ⟨s, hs, by rw [if_pos (by simp [hid])]⟩

/-- Witness for C6 (amended): stopping the existing session "sess1". -/
theorem stop_session_reports_success_witness :
    (stopSession dbOneSession (some "sess1") true).1 = .ok ∧
    ({ (⟨"sess1", some "t", 0, true, 0, none⟩ : TrackingSession) with isActive := false }
      ∈ (stopSession dbOneSession (some "sess1") true).2.trackingSessions) := by
  refine ⟨(stop_session_reports_success dbOneSession (some "sess1")).1,
    (stop_session_reports_success dbOneSession (some "sess1")).2.2 _ (by decide) rfl⟩

/-- C7: when the `location_data` insert fails, each ingest endpoint
answers a storage error, leaves the database unchanged and emits nothing;
and a `location-update` emission happens only when the endpoint answers
success (no phantom events). -/
theorem failed_insert_emits_nothing (db : DB) (r : LocationRequest) (now : ℤ)
    (hv : validateLocationData r = none)
    (hs : strFalsy r.sessionId = false) :
    saveLocation db r false now = (.storageError, db, []) ∧
    mobileLocation db r false now = (.storageError, db, []) ∧
    backgroundLocation db r false now = (.storageError, db, []) ∧
    (∀ (r2 : LocationRequest) (insertOk : Bool),
      (saveLocation db r2 insertOk now).1 ≠ .success →
      (saveLocation db r2 insertOk now).2.2 = []) ∧
    (∀ (r2 : LocationRequest) (insertOk : Bool),
      (mobileLocation db r2 insertOk now).1 ≠ .success →
      (mobileLocation db r2 insertOk now).2.2 = []) := by
  refine ⟨by simp [saveLocation, hv, hs], by simp [mobileLocation, hv],
    by simp [backgroundLocation, hv, hs], ?_, ?_⟩
  · intro r2 insertOk h
    rcases saveLocation_events_shape db r2 insertOk now with h2 | h2
    · exact h2
    · exact absurd h2 h
  · intro r2 insertOk h
    rcases mobileLocation_events_shape db r2 insertOk now with h2 | h2
    · exact h2
    · exact absurd h2 h

/-- Witness for C7 at the concrete request `reqGhost`. -/
theorem failed_insert_emits_nothing_witness :
    saveLocation DB.empty reqGhost false 0 = (.storageError, DB.empty, []) ∧
    mobileLocation DB.empty reqGhost false 0 = (.storageError, DB.empty, []) ∧
    backgroundLocation DB.empty reqGhost false 0 = (.storageError, DB.empty, []) ∧
    (saveLocation DB.empty reqNoSession true 0).2.2 = [] := by
  have h := failed_insert_emits_nothing DB.empty reqGhost 0 (by decide) (by decide)
  exact ⟨h.1, h.2.1, h.2.2.1, h.2.2.2.1 reqNoSession true (by decide)⟩

/-! ## Fan-out helper lemmas -/

/-- If a socket is not in a room, it collects nothing from that room's
member list. -/
lemma roomMembers_filter_eq_nil {l : List (String × String)} {c L : String}
    (h : (c, L) ∉ l) :
    (roomMembers l L).filter (fun x => x == c) = [] := by
  induction l with
  | nil => rfl
  | cons p l ih =>
    have hpl : (c, L) ∉ l := fun hm => h (List.mem_cons_of_mem p hm)
    have hne : p ≠ (c, L) := fun he => h (he ▸ List.mem_cons_self p l)
    by_cases h2 : p.2 = L
    · have h1 : p.1 ≠ c := by
        intro hc
        exact hne (Prod.ext hc h2)
      simp [roomMembers, List.filter_cons, h2, h1]
      simpa [roomMembers] using ih hpl
    · simp [roomMembers, List.filter_cons, h2]
      simpa [roomMembers] using ih hpl

/-- With no duplicate memberships, a socket that is in a room appears in
the member list exactly once. -/
lemma roomMembers_filter_eq_single {l : List (String × String)} {c L : String}
    (h : l.Nodup) (hm : (c, L) ∈ l) :
    (roomMembers l L).filter (fun x => x == c) = [c] := by
  induction l with
  | nil => cases hm
  | cons p l ih =>
    rw [List.nodup_cons] at h
    rcases List.mem_cons.mp hm with he | hm2
    · rw [← he] at h ⊢
      simp [roomMembers, List.filter_cons]
      simpa [roomMembers] using roomMembers_filter_eq_nil h.1
    · by_cases h2 : p.2 = L
      · have h1 : p.1 ≠ c := by
          intro hc
          exact h.1 (by rw [show p = (c, L) from Prod.ext hc h2]; exact hm2)
        simp [roomMembers, List.filter_cons, h2, h1]
        simpa [roomMembers] using ih h.2 hm2
      · simp [roomMembers, List.filter_cons, h2]
        simpa [roomMembers] using ih h.2 hm2

/-- Projecting the event out of the per-member delivery pairs. -/
lemma map_pair_filter (ms : List String) (e : LocationEvent) (c : String) :
    ((ms.map (fun m => (m, e))).filter (fun p => p.1 == c)).map (fun p => p.2)
      = (ms.filter (fun x => x == c)).map (fun _ => e) := by
  induction ms with
  | nil => rfl
  | cons m ms ih =>
    by_cases h : m = c <;> simp [List.filter_cons, h, ih]

/-- What one publish adds to a socket's delivery list. -/
lemma deliveredTo_publish (s : FanoutState) (L : String) (e : LocationEvent)
    (c : String) :
    deliveredTo (fanoutStep s (.publish L e)) c =
      deliveredTo s c ++
        ((roomMembers s.rooms L).filter (fun x => x == c)).map (fun _ => e) := by
  simp [fanoutStep, deliveredTo, List.filter_append, map_pair_filter]

/-- No operation other than a join by `c` itself can put `c` into a room. -/
lemma not_mem_rooms_step (s : FanoutState) (c : String) (op : FanoutOp)
    (h0 : ∀ t, (c, t) ∉ s.rooms)
    (hop : ∀ t, op ≠ .joinTracking c t) :
    ∀ t, (c, t) ∉ (fanoutStep s op).rooms := by
  intro t
  cases op with
  | joinTracking sid tid =>
    have hsid : sid ≠ c := fun he => hop tid (by rw [he])
    by_cases hmem : (sid, tid) ∈ s.rooms
    · simpa [fanoutStep, hmem] using h0 t
    · simp only [fanoutStep, if_neg hmem]
      intro hin
      rcases List.mem_append.mp hin with h2 | h2
      · exact h0 t h2
      · simp at h2
        exact hsid h2.1.symm
  | leaveTracking sid tid =>
    intro hin
    exact h0 t (List.mem_of_mem_filter hin)
  | disconnect sid =>
    intro hin
    exact h0 t (List.mem_of_mem_filter hin)
  | publish tid e => exact h0 t

/-- A socket in no room at the start of a run that contains no join by it
is in no room throughout the run, and its delivery list never grows. -/
lemma deliveredTo_run_of_not_mem (c : String) :
    ∀ (ops : List FanoutOp) (s : FanoutState),
      (∀ op ∈ ops, ∀ t, op ≠ .joinTracking c t) →
      (∀ t, (c, t) ∉ s.rooms) →
      deliveredTo (fanoutRun s ops) c = deliveredTo s c := by
  intro ops
  induction ops with
  | nil => intro s _ _; rfl
  | cons op ops ih =>
    intro s hops h0
    have hop : ∀ t, op ≠ .joinTracking c t :=
      fun t => hops op (List.mem_cons_self op ops) t
    have hops2 : ∀ op2 ∈ ops, ∀ t, op2 ≠ .joinTracking c t :=
      fun op2 hm t => hops op2 (List.mem_cons_of_mem op hm) t
    have hstep : deliveredTo (fanoutStep s op) c = deliveredTo s c := by
      cases op with
      | publish tid e =>
        rw [deliveredTo_publish, roomMembers_filter_eq_nil (h0 tid)]
        simp
      | joinTracking sid tid => rfl
      | leaveTracking sid tid => rfl
      | disconnect sid => rfl
    have hrun : fanoutRun s (op :: ops) = fanoutRun (fanoutStep s op) ops := rfl
    rw [hrun, ih (fanoutStep s op) hops2 (not_mem_rooms_step s c op h0 hop), hstep]

/-- Every fan-out step keeps the room-membership list duplicate free. -/
lemma nodup_rooms_step (s : FanoutState) (op : FanoutOp)
    (h : s.rooms.Nodup) : (fanoutStep s op).rooms.Nodup := by
  cases op with
  | joinTracking sid tid =>
    by_cases hmem : (sid, tid) ∈ s.rooms
    · simpa [fanoutStep, hmem] using h
    · simp [fanoutStep, hmem, List.nodup_append, h]
  | leaveTracking sid tid => exact List.Nodup.filter _ h
  | disconnect sid => exact List.Nodup.filter _ h
  | publish tid e => exact h

/-- Runs started from a duplicate-free membership list stay duplicate
free. -/
lemma nodup_rooms_run :
    ∀ (ops : List FanoutOp) (s : FanoutState),
      s.rooms.Nodup → (fanoutRun s ops).rooms.Nodup := by
  intro ops
  induction ops with
  | nil => intro s h; exact h
  | cons op ops ih => intro s h; exact ih _ (nodup_rooms_step s op h)

/-! ## Route-analysis helper lemmas -/

/-- The stop list threaded through the `analyzeRoute` loop is the list of
consecutive pairs separated by more than 5 minutes, in order. -/
lemma routeStep_foldl_stops (ps : List (LocationRow × LocationRow)) :
    ∀ acc : ℝ × ℚ × ℕ × List Stop,
      (ps.foldl routeStep acc).2.2.2 =
        acc.2.2.2 ++ (ps.filter (fun pc =>
          pc.2.timestamp - pc.1.timestamp > 5 * 60 * 1000)).map stopOfPair := by
  induction ps with
  | nil => intro acc; simp
  | cons pc ps ih =>
    intro acc
    rw [List.foldl_cons, ih]
    by_cases h : (300000 : ℤ) < pc.2.timestamp - pc.1.timestamp
    · simp [routeStep, h, stopOfPair, List.filter_cons]
    · simp [routeStep, h, List.filter_cons]

/-- C9: fan-out ordering over join/disconnect/publish sequences.  Room
membership built by the handlers is duplicate-free; a subscribed
connection is delivered exactly each event published to its link while it
is subscribed; a connection in no room receives nothing from a publish;
joining delivers no previously published event (no replay); after its
disconnect is processed a connection receives nothing more under any
continuation that does not re-join it; and a publish after another
connection's disconnect still reaches the remaining subscribers. -/
theorem fanout_delivery_semantics :
    (∀ ops : List FanoutOp, (fanoutRun FanoutState.empty ops).rooms.Nodup)
    ∧ (∀ (s : FanoutState) (c L : String) (e : LocationEvent),
        s.rooms.Nodup → (c, L) ∈ s.rooms →
        deliveredTo (fanoutStep s (.publish L e)) c = deliveredTo s c ++ [e])
    ∧ (∀ (s : FanoutState) (c L : String) (e : LocationEvent),
        (∀ t, (c, t) ∉ s.rooms) →
        deliveredTo (fanoutStep s (.publish L e)) c = deliveredTo s c)
    ∧ (∀ (s : FanoutState) (c sid tid : String),
        deliveredTo (fanoutStep s (.joinTracking sid tid)) c = deliveredTo s c)
    ∧ (∀ (s : FanoutState) (c : String) (ops : List FanoutOp),
        (∀ op ∈ ops, ∀ t, op ≠ .joinTracking c t) →
        deliveredTo (fanoutRun (fanoutStep s (.disconnect c)) ops) c
          = deliveredTo s c)
    ∧ (∀ (s : FanoutState) (c c2 L : String) (e : LocationEvent),
        c2 ≠ c → s.rooms.Nodup → (c2, L) ∈ s.rooms →
        deliveredTo (fanoutStep (fanoutStep s (.disconnect c)) (.publish L e)) c2
          = deliveredTo s c2 ++ [e]) := by
  have hin : ∀ (s : FanoutState) (c L : String) (e : LocationEvent),
      s.rooms.Nodup → (c, L) ∈ s.rooms →
      deliveredTo (fanoutStep s (.publish L e)) c = deliveredTo s c ++ [e] := by
    intro s c L e hnd hm
    rw [deliveredTo_publish, roomMembers_filter_eq_single hnd hm]
    simp
  refine ⟨?_, hin, ?_, ?_, ?_, ?_⟩
  · intro ops
    exact nodup_rooms_run ops FanoutState.empty (by simp [FanoutState.empty])
  · intro s c L e h0
    rw [deliveredTo_publish, roomMembers_filter_eq_nil (h0 L)]
    simp
  · intro s c sid tid
    rfl
  · intro s c ops hops
    have h0 : ∀ t, (c, t) ∉ (fanoutStep s (.disconnect c)).rooms := by
      intro t hm
      rcases List.mem_filter.mp hm with ⟨_, hbad⟩
      simp at hbad
    rw [deliveredTo_run_of_not_mem c ops _ hops h0]
    rfl
  · intro s c c2 L e hne hnd hm
    have hm2 : (c2, L) ∈ (fanoutStep s (.disconnect c)).rooms :=
      List.mem_filter.mpr ⟨hm, by simpa using hne⟩
    have hnd2 : (fanoutStep s (.disconnect c)).rooms.Nodup :=
      nodup_rooms_step s _ hnd
    rw [hin _ c2 L e hnd2 hm2]
    rfl

/-- Witness for C9 on concrete two-subscriber states. -/
theorem fanout_delivery_semantics_witness :
    deliveredTo (fanoutStep (⟨[("a", "L"), ("b", "L")], [], []⟩ : FanoutState)
        (.publish "L" evSample)) "a"
      = deliveredTo (⟨[("a", "L"), ("b", "L")], [], []⟩ : FanoutState) "a" ++ [evSample] ∧
    deliveredTo (fanoutRun (fanoutStep (⟨[("a", "L")], [], []⟩ : FanoutState)
        (.disconnect "a")) [.publish "L" evSample]) "a"
      = deliveredTo (⟨[("a", "L")], [], []⟩ : FanoutState) "a" ∧
    deliveredTo (fanoutStep (fanoutStep (⟨[("a", "L"), ("b", "L")], [], []⟩ : FanoutState)
        (.disconnect "a")) (.publish "L" evSample)) "b"
      = deliveredTo (⟨[("a", "L"), ("b", "L")], [], []⟩ : FanoutState) "b" ++ [evSample] := by
  have h := fanout_delivery_semantics
  refine ⟨h.2.1 _ "a" "L" evSample (by decide) (by decide), ?_,
    h.2.2.2.2.2 _ "a" "b" "L" evSample (by decide) (by decide) (by decide)⟩
  apply h.2.2.2.2.1 _ "a" [.publish "L" evSample]
  intro op hm t
  simp at hm
  subst hm
  simp

/-- C8: for every sample history, `analyzeRoute` records exactly one stop
per consecutive pair whose gap exceeds 5 minutes — at the later sample's
coordinates, with the gap in minutes as duration and the later sample's
timestamp — and no other stops; two samples exactly 10 minutes apart yield
exactly one stop of duration 10 minutes, and a pair exactly 5 minutes
apart yields none. -/
theorem analyzeRoute_stop_detection :
    (∀ locations : List LocationRow,
      (analyzeRoute locations).stops =
        ((locations.zip locations.tail).filter (fun pc =>
          pc.2.timestamp - pc.1.timestamp > 5 * 60 * 1000)).map stopOfPair)
    ∧ (∀ r1 r2 : LocationRow, r2.timestamp - r1.timestamp = 10 * 60 * 1000 →
        (analyzeRoute [r1, r2]).stops = [⟨r2.latitude, r2.longitude, 10, r2.timestamp⟩])
    ∧ (∀ r1 r2 : LocationRow, r2.timestamp - r1.timestamp = 5 * 60 * 1000 →
        (analyzeRoute [r1, r2]).stops = []) := by
  have hmain : ∀ locations : List LocationRow,
      (analyzeRoute locations).stops =
        ((locations.zip locations.tail).filter (fun pc =>
          pc.2.timestamp - pc.1.timestamp > 5 * 60 * 1000)).map stopOfPair := by
    intro locations
    unfold analyzeRoute
    by_cases h : locations.length < 2
    · rw [if_pos h]
      rcases locations with _ | ⟨x, _ | ⟨y, t⟩⟩
      · simp
      · simp
      · simp at h
        omega
    · rw [if_neg h]
      dsimp only
      rw [routeStep_foldl_stops]
      simp
  refine ⟨hmain, ?_, ?_⟩
  · intro r1 r2 hgap
    rw [hmain [r1, r2]]
    simp [List.filter_cons, hgap, stopOfPair]
    norm_num
  · intro r1 r2 hgap
    rw [hmain [r1, r2]]
    simp [List.filter_cons, hgap]

/-- Witness for C8 on concrete 10-minute and 5-minute pairs. -/
theorem analyzeRoute_stop_detection_witness :
    (analyzeRoute [sample1 0, { sample1 0 with timestamp := 600000 }]).stops
      = [⟨41.0082, 28.9784, 10, 600000⟩] ∧
    (analyzeRoute [sample1 0, { sample1 0 with timestamp := 300000 }]).stops = [] := by
  have h := analyzeRoute_stop_detection
  exact ⟨h.2.1 _ _ (by decide), h.2.2 _ _ (by decide)⟩

/-! ## Numeric lemmas for `calculateDistance` -/

/-- The function `calculateDistance` written without its `let` bindings, via
`haversineA`. -/
lemma calculateDistance_eq (lat1 lon1 lat2 lon2 : ℝ) :
    calculateDistance lat1 lon1 lat2 lon2 =
      6371 * (2 * atan2 (Real.sqrt (haversineA lat1 lon1 lat2 lon2))
        (Real.sqrt (1 - haversineA lat1 lon1 lat2 lon2))) := rfl

/-- Characterisation of `Math.round` by bounds. -/
lemma jsRound_eq {x : ℝ} {n : ℤ} (h1 : (n : ℝ) ≤ x + 1/2)
    (h2 : x + 1/2 < n + 1) : jsRound x = n := by
  unfold jsRound
  exact Int.floor_eq_iff.mpr ⟨h1, h2⟩

/-- Lower and upper bounds for `sin x * sin x` at a small positive `x`. -/
lemma sin_sq_tiny_bounds {x lo hi : ℝ} (hx1 : lo ≤ x) (hx2 : x ≤ hi)
    (h0 : 0 < lo) (hhi : hi ≤ 1) (hnn : 0 ≤ lo - hi ^ 3 / 4) :
    (lo - hi ^ 3 / 4) ^ 2 ≤ Real.sin x * Real.sin x ∧
    Real.sin x * Real.sin x ≤ hi ^ 2 := by
  have hx0 : 0 < x := lt_of_lt_of_le h0 hx1
  have hup : Real.sin x ≤ hi := le_trans (le_of_lt (Real.sin_lt hx0)) hx2
  have hcube : x ^ 3 ≤ hi ^ 3 := pow_le_pow_left (le_of_lt hx0) hx2 3
  have hlow : lo - hi ^ 3 / 4 ≤ Real.sin x := by
    have h3 := Real.sin_gt_sub_cube hx0 (le_trans hx2 hhi)
    nlinarith
  have hpos : 0 ≤ Real.sin x := le_trans hnn hlow
  constructor
  · nlinarith
  · nlinarith

/-- Taylor bounds for `sin x` on `[0, 1]`, from `Real.sin_bound`. -/
lemma sin_taylor_bounds {x lo hi : ℝ} (hx1 : lo ≤ x) (hx2 : x ≤ hi)
    (h0 : 0 ≤ lo) (hhi : hi ≤ 1) :
    lo - hi ^ 3 / 6 - hi ^ 4 * (5 / 96) ≤ Real.sin x ∧
    Real.sin x ≤ hi - lo ^ 3 / 6 + hi ^ 4 * (5 / 96) := by
  have hx0 : 0 ≤ x := le_trans h0 hx1
  have habs : |x| ≤ 1 := by
    rw [abs_of_nonneg hx0]
    exact le_trans hx2 hhi
  have hb := Real.sin_bound habs
  rw [abs_of_nonneg hx0, abs_le] at hb
  have h3 : x ^ 3 ≤ hi ^ 3 := pow_le_pow_left hx0 hx2 3
  have h3' : lo ^ 3 ≤ x ^ 3 := pow_le_pow_left h0 hx1 3
  have h4 : x ^ 4 ≤ hi ^ 4 := pow_le_pow_left hx0 hx2 4
  constructor
  · linarith [hb.1]
  · linarith [hb.2]

/-- The half-angle form of the cosine. -/
lemma cos_eq_one_sub_two_sin_sq (x : ℝ) :
    Real.cos x = 1 - 2 * (Real.sin (x / 2) * Real.sin (x / 2)) := by
  have h1 : Real.cos (2 * (x / 2)) = 2 * Real.cos (x / 2) ^ 2 - 1 :=
    Real.cos_two_mul (x / 2)
  have h2 : Real.sin (x / 2) ^ 2 + Real.cos (x / 2) ^ 2 = 1 :=
    Real.sin_sq_add_cos_sq (x / 2)
  have h3 : 2 * (x / 2) = x := by ring
  rw [h3] at h1
  linear_combination h1 + 2 * h2

/-- Real `arcsin` dominates the identity on `[0, 1]`. -/
lemma self_le_arcsin {x : ℝ} (h0 : 0 ≤ x) (h1 : x ≤ 1) :
    x ≤ Real.arcsin x := by
  rcases eq_or_lt_of_le h0 with h | h
  · rw [← h]
    simp
  · have hp : 0 < Real.arcsin x := Real.arcsin_pos.mpr h
    have hs : Real.sin (Real.arcsin x) = x := Real.sin_arcsin (by linarith) h1
    have hlt := Real.sin_lt hp
    rw [hs] at hlt
    exact le_of_lt hlt

/-- An upper bound on `arcsin` via the cubic lower bound on `sin`. -/
lemma arcsin_le_of_le_sub_cube {x b : ℝ} (hx0 : 0 ≤ x) (hb0 : 0 < b)
    (hb1 : b ≤ 1) (hxb : x ≤ b - b ^ 3 / 4) : Real.arcsin x ≤ b := by
  have hsb := Real.sin_gt_sub_cube hb0 hb1
  have hxs : x ≤ Real.sin b := le_trans hxb (le_of_lt hsb)
  have hmono := Real.monotone_arcsin hxs
  have hpi : (3 : ℝ) < Real.pi := Real.pi_gt_three
  have heq : Real.arcsin (Real.sin b) = b :=
    Real.arcsin_sin (by linarith) (by linarith)
  rw [heq] at hmono
  exact hmono

/-- For `0 ≤ a < 1`, `Math.atan2 (√a) (√(1-a))` is `arcsin (√a)`. -/
lemma atan2_sqrt_eq_arcsin {a : ℝ} (h0 : 0 ≤ a) (h1 : a < 1) :
    atan2 (Real.sqrt a) (Real.sqrt (1 - a)) = Real.arcsin (Real.sqrt a) := by
  have hpos : 0 < Real.sqrt (1 - a) := Real.sqrt_pos.mpr (by linarith)
  unfold atan2
  rw [if_pos hpos]
  have hmem : Real.sqrt a ∈ Set.Ioo (-1 : ℝ) 1 := by
    constructor
    · linarith [Real.sqrt_nonneg a]
    · rw [show (1 : ℝ) = Real.sqrt 1 from Real.sqrt_one.symm]
      exact Real.sqrt_lt_sqrt h0 (by linarith [Real.sqrt_one])
  rw [Real.arcsin_eq_arctan hmem]
  congr 2
  rw [Real.sq_sqrt h0]

/-- The geofence counterexample distance: `calculateDistance` from
`(0, 0)` to `(0, 180)` is exactly `6371 π` kilometres. -/
lemma calculateDistance_zero_one_eighty :
    calculateDistance 0 0 0 180 = 6371 * Real.pi := by
  rw [calculateDistance_eq]
  have ha : haversineA 0 0 0 180 = 1 := by
    unfold haversineA
    have e1 : ((0 : ℝ) - 0) * Real.pi / 180 / 2 = 0 := by ring
    have e2 : ((180 : ℝ) - 0) * Real.pi / 180 / 2 = Real.pi / 2 := by ring
    have e3 : (0 : ℝ) * Real.pi / 180 = 0 := by ring
    rw [e1, e2, e3, Real.sin_zero, Real.cos_zero, Real.sin_pi_div_two]
    ring
  rw [ha, show (1 : ℝ) - 1 = 0 by norm_num, Real.sqrt_zero, Real.sqrt_one]
  unfold atan2
  rw [if_neg (lt_irrefl (0 : ℝ)), if_neg (lt_irrefl (0 : ℝ)), if_pos one_pos]
  ring

set_option maxHeartbeats 3000000 in
/-- Rational interval bounds for the haversine `a` of the scenario pair
`(41.0082, 28.9784) – (41.0122, 28.9844)`. -/
lemma haversineA_scenario_bounds :
    0.0000000027747 ≤ haversineA 41.0082 28.9784 41.0122 28.9844 ∧
    haversineA 41.0082 28.9784 41.0122 28.9844 ≤ 0.0000000027849 := by
  have hpiLo : (3.141592 : ℝ) < Real.pi := Real.pi_gt_d6
  have hpiHi : Real.pi < 3.141593 := Real.pi_lt_d6
  have e1 : ((41.0122 : ℝ) - 41.0082) * Real.pi / 180 / 2 = Real.pi / 90000 := by
    rw [show (41.0122 : ℝ) - 41.0082 = 1 / 250 by norm_num]
    ring
  have e2 : ((28.9844 : ℝ) - 28.9784) * Real.pi / 180 / 2 = Real.pi / 60000 := by
    rw [show (28.9844 : ℝ) - 28.9784 = 3 / 500 by norm_num]
    ring
  have hx1 : (0.0000349065 : ℝ) ≤ Real.pi / 90000 ∧
      Real.pi / 90000 ≤ 0.0000349066 := by
    constructor <;> nlinarith
  have hs1 := sin_sq_tiny_bounds hx1.1 hx1.2 (by norm_num) (by norm_num) (by norm_num)
  have hs1' : (0.0000000012184 : ℝ) ≤
        Real.sin (Real.pi / 90000) * Real.sin (Real.pi / 90000) ∧
      Real.sin (Real.pi / 90000) * Real.sin (Real.pi / 90000) ≤ 0.0000000012185 :=
    ⟨le_trans (by norm_num) hs1.1, le_trans hs1.2 (by norm_num)⟩
  have hx2 : (0.0000523598 : ℝ) ≤ Real.pi / 60000 ∧
      Real.pi / 60000 ≤ 0.0000523599 := by
    constructor <;> nlinarith
  have hs2 := sin_sq_tiny_bounds hx2.1 hx2.2 (by norm_num) (by norm_num) (by norm_num)
  have hs2' : (0.00000000274153 : ℝ) ≤
        Real.sin (Real.pi / 60000) * Real.sin (Real.pi / 60000) ∧
      Real.sin (Real.pi / 60000) * Real.sin (Real.pi / 60000) ≤ 0.00000000274156 :=
    ⟨le_trans (by norm_num) hs2.1, le_trans hs2.2 (by norm_num)⟩
  have hh1 : (0.3578639 : ℝ) ≤ 41.0082 * Real.pi / 360 ∧
      41.0082 * Real.pi / 360 ≤ 0.3578641 := by
    constructor <;> nlinarith
  have hsin1 := sin_taylor_bounds hh1.1 hh1.2 (by norm_num) (by norm_num)
  have hsin1' : (0.349371 : ℝ) ≤ Real.sin (41.0082 * Real.pi / 360) ∧
      Real.sin (41.0082 * Real.pi / 360) ≤ 0.351080 :=
    ⟨le_trans (by norm_num) hsin1.1, le_trans hsin1.2 (by norm_num)⟩
  have hC1eq := cos_eq_one_sub_two_sin_sq ((41.0082 : ℝ) * Real.pi / 180)
  rw [show (41.0082 : ℝ) * Real.pi / 180 / 2 = 41.0082 * Real.pi / 360 by ring] at hC1eq
  have hcos1 : (0.75348 : ℝ) ≤ Real.cos ((41.0082 : ℝ) * Real.pi / 180) ∧
      Real.cos ((41.0082 : ℝ) * Real.pi / 180) ≤ 0.75588 := by
    rw [hC1eq]
    constructor <;>
      nlinarith [mul_self_le_mul_self (le_trans (by norm_num) hsin1'.1) hsin1'.2,
        mul_self_le_mul_self (by norm_num : (0:ℝ) ≤ 0.349371) hsin1'.1]
  have hh2 : (0.3578988 : ℝ) ≤ 41.0122 * Real.pi / 360 ∧
      41.0122 * Real.pi / 360 ≤ 0.3578991 := by
    constructor <;> nlinarith
  have hsin2 := sin_taylor_bounds hh2.1 hh2.2 (by norm_num) (by norm_num)
  have hsin2' : (0.349403 : ℝ) ≤ Real.sin (41.0122 * Real.pi / 360) ∧
      Real.sin (41.0122 * Real.pi / 360) ≤ 0.351115 :=
    ⟨le_trans (by norm_num) hsin2.1, le_trans hsin2.2 (by norm_num)⟩
  have hC2eq := cos_eq_one_sub_two_sin_sq ((41.0122 : ℝ) * Real.pi / 180)
  rw [show (41.0122 : ℝ) * Real.pi / 180 / 2 = 41.0122 * Real.pi / 360 by ring] at hC2eq
  have hcos2 : (0.75343 : ℝ) ≤ Real.cos ((41.0122 : ℝ) * Real.pi / 180) ∧
      Real.cos ((41.0122 : ℝ) * Real.pi / 180) ≤ 0.75585 := by
    rw [hC2eq]
    constructor <;>
      nlinarith [mul_self_le_mul_self (le_trans (by norm_num) hsin2'.1) hsin2'.2,
        mul_self_le_mul_self (by norm_num : (0:ℝ) ≤ 0.349403) hsin2'.1]
  have hprodLo : (0.75348 : ℝ) * 0.75343 ≤
      Real.cos ((41.0082 : ℝ) * Real.pi / 180) * Real.cos ((41.0122 : ℝ) * Real.pi / 180) :=
    mul_le_mul hcos1.1 hcos2.1 (by norm_num) (le_trans (by norm_num) hcos1.1)
  have hprodHi : Real.cos ((41.0082 : ℝ) * Real.pi / 180) *
        Real.cos ((41.0122 : ℝ) * Real.pi / 180) ≤ 0.75588 * 0.75585 :=
    mul_le_mul hcos1.2 hcos2.2 (le_trans (by norm_num) hcos2.1) (by norm_num)
  have htermLo : (0.75348 : ℝ) * 0.75343 * 0.00000000274153 ≤
      Real.cos ((41.0082 : ℝ) * Real.pi / 180) * Real.cos ((41.0122 : ℝ) * Real.pi / 180) *
        (Real.sin (Real.pi / 60000) * Real.sin (Real.pi / 60000)) :=
    mul_le_mul hprodLo hs2'.1 (by norm_num)
      (le_trans (by norm_num) hprodLo)
  have htermHi : Real.cos ((41.0082 : ℝ) * Real.pi / 180) *
        Real.cos ((41.0122 : ℝ) * Real.pi / 180) *
        (Real.sin (Real.pi / 60000) * Real.sin (Real.pi / 60000)) ≤
      0.75588 * 0.75585 * 0.00000000274156 :=
    mul_le_mul hprodHi hs2'.2 (mul_self_nonneg _) (by norm_num)
  unfold haversineA
  rw [e1, e2]
  constructor
  · nlinarith [hs1'.1, htermLo]
  · nlinarith [hs1'.2, htermHi]

set_option maxHeartbeats 2000000 in
/-- The scenario distance lies in `[0.665, 0.675)`; it is about 0.6718 km
and `Math.round(d*100)/100` is therefore 0.67. -/
lemma dist_scenario_bounds :
    0.665 ≤ calculateDistance 41.0082 28.9784 41.0122 28.9844 ∧
    calculateDistance 41.0082 28.9784 41.0122 28.9844 < 0.675 := by
  have ha := haversineA_scenario_bounds
  have h0 : 0 ≤ haversineA 41.0082 28.9784 41.0122 28.9844 :=
    le_trans (by norm_num) ha.1
  have h1 : haversineA 41.0082 28.9784 41.0122 28.9844 < 1 :=
    lt_of_le_of_lt ha.2 (by norm_num)
  rw [calculateDistance_eq, atan2_sqrt_eq_arcsin h0 h1]
  have hsq1 : (0.0000526740 : ℝ) ≤
      Real.sqrt (haversineA 41.0082 28.9784 41.0122 28.9844) := by
    refine (Real.le_sqrt (by norm_num) h0).mpr ?_
    nlinarith [ha.1]
  have hsq2 : Real.sqrt (haversineA 41.0082 28.9784 41.0122 28.9844) ≤
      0.0000527722 := by
    refine Real.sqrt_le_iff.mpr ⟨by norm_num, ?_⟩
    nlinarith [ha.2]
  have harcLo : (0.0000526740 : ℝ) ≤
      Real.arcsin (Real.sqrt (haversineA 41.0082 28.9784 41.0122 28.9844)) :=
    le_trans hsq1 (self_le_arcsin (Real.sqrt_nonneg _) (le_trans hsq2 (by norm_num)))
  have harcHi : Real.arcsin (Real.sqrt (haversineA 41.0082 28.9784 41.0122 28.9844)) ≤
      0.0000527723 :=
    arcsin_le_of_le_sub_cube (Real.sqrt_nonneg _) (by norm_num) (by norm_num)
      (le_trans hsq2 (by norm_num))
  constructor
  · nlinarith [harcLo]
  · nlinarith [harcHi]

/-- Unrolling a conditional-append fold into filter-and-map. -/
lemma foldl_append_if {α β : Type} (l : List α) (p : α → Prop) [DecidablePred p]
    (f : α → β) :
    ∀ acc : List β,
      l.foldl (fun a x => if p x then a ++ [f x] else a) acc
        = acc ++ (l.filter (fun x => decide (p x))).map f := by
  induction l with
  | nil => intro acc; simp
  | cons x l ih =>
    intro acc
    rw [List.foldl_cons]
    by_cases h : p x
    · rw [if_pos h, ih]
      simp [List.filter_cons, h]
    · rw [if_neg h, ih]
      simp [List.filter_cons, h]

/-- The function `checkGeofence` written without its `let` bindings. -/
lemma checkGeofence_eq (db : DB) (tid : Option String) (lat lon : ℚ) :
    checkGeofence db tid lat lon =
      (db.geofences.filter (fun g => g.trackingId == tid && g.active)).foldl
        (fun acc g =>
          if calculateDistance (lat : ℝ) (lon : ℝ) (g.latitude : ℝ) (g.longitude : ℝ)
              ≤ (g.radius : ℝ) then
            acc ++ [⟨g.id, g.action, jsRound (calculateDistance (lat : ℝ) (lon : ℝ)
              (g.latitude : ℝ) (g.longitude : ℝ) * 1000)⟩]
          else acc) [] := rfl

/-- C1 as stated is false at this input: the single active geofence of
link "t" is centred at `(0, 180)` with radius 25000 (metres), the point
`(0, 0)` lies `6371π ≈ 20015087` metres away — far outside the claimed
metre-radius condition — yet the geofence triggers, because the code
compares the kilometre distance `6371π ≈ 20015` directly with 25000. -/
theorem geofence_triggered_beyond_meter_radius :
    (checkGeofence dbGeofence (some "t") 0 0).length = 1 ∧
    calculateDistance 0 0 0 180 ≤ 25000 ∧
    25000 < 1000 * calculateDistance 0 0 0 180 := by
  have hd := calculateDistance_zero_one_eighty
  have hpi3 : (3 : ℝ) < Real.pi := Real.pi_gt_three
  have hpi315 : Real.pi < 3.15 := Real.pi_lt_d2
  have hle : calculateDistance 0 0 0 180 ≤ 25000 := by
    rw [hd]; nlinarith
  have hgt : (25000 : ℝ) < 1000 * calculateDistance 0 0 0 180 := by
    rw [hd]; nlinarith
  refine ⟨?_, hle, hgt⟩
  rw [checkGeofence_eq]
  have hfilter : dbGeofence.geofences.filter
      (fun g => g.trackingId == some "t" && g.active) = [geofenceFar] := rfl
  rw [hfilter, List.foldl_cons, List.foldl_nil]
  have hcond : calculateDistance ((0 : ℚ) : ℝ) ((0 : ℚ) : ℝ)
      ((geofenceFar.latitude : ℚ) : ℝ) ((geofenceFar.longitude : ℚ) : ℝ)
      ≤ ((geofenceFar.radius : ℚ) : ℝ) := by
    have h1 : ((geofenceFar.latitude : ℚ) : ℝ) = 0 := by norm_num [geofenceFar]
    have h2 : ((geofenceFar.longitude : ℚ) : ℝ) = 180 := by norm_num [geofenceFar]
    have h3 : ((geofenceFar.radius : ℚ) : ℝ) = 25000 := by norm_num [geofenceFar]
    have h0 : ((0 : ℚ) : ℝ) = 0 := by norm_num
    rw [h0, h1, h2, h3]
    exact hle
  rw [if_pos hcond]
  rfl

/-- C1 (amended): the geofence check includes an active geofence of the
tracking link in the triggered list iff the great-circle distance in
kilometres — Geo Math's unit, not converted to metres — is at most the
stored radius value (boundary inclusive); each triggered entry reports
`Math.round(distance × 1000)`, the distance in metres. -/
theorem check_geofence_trigger_characterization (db : DB) (tid : Option String)
    (lat lon : ℚ) (e : TriggeredGeofence) :
    e ∈ checkGeofence db tid lat lon ↔
      ∃ g ∈ db.geofences, g.trackingId = tid ∧ g.active = true ∧
        calculateDistance (lat : ℝ) (lon : ℝ) (g.latitude : ℝ) (g.longitude : ℝ)
          ≤ (g.radius : ℝ) ∧
        e = ⟨g.id, g.action, jsRound (calculateDistance (lat : ℝ) (lon : ℝ)
          (g.latitude : ℝ) (g.longitude : ℝ) * 1000)⟩ := by
  rw [checkGeofence_eq, foldl_append_if]
  simp only [List.nil_append, List.mem_map, List.mem_filter, Bool.and_eq_true,
    beq_iff_eq, decide_eq_true_eq]
  constructor
  · rintro ⟨g, ⟨⟨hg, ht, ha⟩, hd⟩, he⟩
    exact ⟨g, hg, ht, ha, hd, he.symm⟩
  · rintro ⟨g, hg, ht, ha, hd, he⟩
    exact ⟨g, ⟨⟨hg, ht, ha⟩, hd⟩, he.symm⟩

/-- C2 as stated is false: on the two-sample scenario the code reports
avgSpeed 25 km/h, not round(6×3.6) = 22 — the loop only reads
`locations[i].speed` for `i ≥ 1`, so the first sample's reading 5 is never
accumulated and the average is round(7×3.6) = 25. -/
theorem route_scenario_avgspeed_counterexample :
    (analyzeRoute [sample1 0, sample2 0]).avgSpeed = 25 ∧ (25 : ℚ) ≠ 22 := by
  constructor
  · have h2 : (routeStep (0, 0, 0, []) (sample1 0, sample2 0)).2.1 = 7 := by
      norm_num [routeStep, sample2, sample1]
    have h3 : (routeStep (0, 0, 0, []) (sample1 0, sample2 0)).2.2.1 = 1 := by
      norm_num [routeStep, sample2, sample1]
    unfold analyzeRoute
    rw [if_neg (by norm_num)]
    dsimp only
    rw [show ([sample1 0, sample2 0].zip [sample1 0, sample2 0].tail)
        = [(sample1 0, sample2 0)] from rfl, List.foldl_cons, List.foldl_nil,
      h2, h3]
    have hfl : ⌊(25.7 : ℚ)⌋ = 25 := by
      rw [Int.floor_eq_iff]
      norm_num
    norm_num [jsRoundQ, hfl]
  · norm_num

/-- C2 (amended): for the two-sample history at `(41.0082, 28.9784)` and
`(41.0122, 28.9844)` captured 2 minutes apart with speed readings 5 and 7
(m/s), `analyzeRoute` returns `totalDistance = 0.67` km (the Haversine
distance ≈ 0.6718 km rounded to 2 decimals — not 0.65), `avgSpeed = 25`
km/h (only the second sample's reading is accumulated: round(7×3.6) = 25 —
not round(6×3.6) = 22), and an empty stops list (the 2-minute gap is under
5 minutes). -/
theorem route_two_sample_scenario (t0 : ℤ) :
    (analyzeRoute [sample1 t0, sample2 t0]).totalDistance = 0.67 ∧
    (analyzeRoute [sample1 t0, sample2 t0]).avgSpeed = 25 ∧
    (analyzeRoute [sample1 t0, sample2 t0]).stops = [] := by
  have hzip : ([sample1 t0, sample2 t0].zip [sample1 t0, sample2 t0].tail)
      = [(sample1 t0, sample2 t0)] := rfl
  have h1 : (routeStep (0, 0, 0, []) (sample1 t0, sample2 t0)).1
      = calculateDistance 41.0082 28.9784 41.0122 28.9844 := by
    unfold routeStep
    dsimp only
    rw [zero_add]
    have c1 : (((sample1 t0).latitude : ℚ) : ℝ) = 41.0082 := by norm_num [sample1]
    have c2 : (((sample1 t0).longitude : ℚ) : ℝ) = 28.9784 := by norm_num [sample1]
    have c3 : (((sample2 t0).latitude : ℚ) : ℝ) = 41.0122 := by
      norm_num [sample2, sample1]
    have c4 : (((sample2 t0).longitude : ℚ) : ℝ) = 28.9844 := by
      norm_num [sample2, sample1]
    rw [c1, c2, c3, c4]
  have h2 : (routeStep (0, 0, 0, []) (sample1 t0, sample2 t0)).2.1 = 7 := by
    norm_num [routeStep, sample2, sample1]
  have h3 : (routeStep (0, 0, 0, []) (sample1 t0, sample2 t0)).2.2.1 = 1 := by
    norm_num [routeStep, sample2, sample1]
  have h4 : (routeStep (0, 0, 0, []) (sample1 t0, sample2 t0)).2.2.2 = [] := by
    unfold routeStep
    dsimp only
    rw [if_neg]
    simp [sample2, sample1]
  unfold analyzeRoute
  rw [if_neg (by norm_num)]
  dsimp only
  rw [hzip, List.foldl_cons, List.foldl_nil]
  refine ⟨?_, ?_, h4⟩
  · rw [h1]
    have hb := dist_scenario_bounds
    have hj : jsRound (calculateDistance 41.0082 28.9784 41.0122 28.9844 * 100)
        = 67 := by
      refine jsRound_eq ?_ ?_
      · push_cast
        nlinarith [hb.1]
      · push_cast
        nlinarith [hb.2]
    rw [hj]
    norm_num
  · rw [h2, h3]
    have hfl : ⌊(25.7 : ℚ)⌋ = 25 := by
      rw [Int.floor_eq_iff]
      norm_num
    norm_num [jsRoundQ, hfl]

end LocationTracker
